import Mathlib

/-!
Verification of the RetireSafe financial projection engine.

The engine is the set of pure numeric functions in `src/App.tsx`:
the Social-Security benefit multiplier curve (`getSsaMultiplier`),
the runway projector (`calculateRunway`), the ending-balance projector
(`calculateEndingBalance`), the cumulative-cash summation
(`calculateCumulativeCash`), and the break-even analyzer
(`findBreakEven` together with `nowAge`).

Modelling conventions:
- Currency amounts and rates are rationals (ℚ); the source uses JS
  doubles, but every claim here is about the exact real-number formulas.
- Age-valued snapshot fields are integers (ℤ), matching the spec's data
  model (`age`, `retirementAge`, `expectedLife`, `ssaClaimingAge` are
  integer years); the benefit curve itself takes a rational argument,
  since fractional claim ages are explicitly in scope for it.
- JS `for`/`while` loops become structural recursion.  The runway loop's
  guard `yearsPostRetirement < 50` is encoded by a fuel argument with
  the invariant `fuel = 50 - years` (fuel 0 exactly when the guard
  fails); the break-even loop's guard `age <= 100` is encoded by
  `fuel = (101 - age).toNat`.  Each loop helper takes exactly the
  values the corresponding JS closure captures.
- `Math.pow(1 + inflation, years)` with an integer exponent is `zpow`.
-/

namespace RetireSafe

/-- The `roiScenarios` sub-record of the snapshot. -/
structure RoiScenarios where
  low : ℚ
  mid : ℚ
  high : ℚ
  deriving DecidableEq

/-- The `assets` sub-record of the snapshot (final data model, with
home and car). -/
structure Assets where
  fourOhOneK : ℚ
  ira : ℚ
  savings : ℚ
  home : ℚ
  car : ℚ
  other : ℚ
  deriving DecidableEq

/-- The `liabilities` sub-record of the snapshot. -/
structure Liabilities where
  mortgage : ℚ
  loans : ℚ
  other : ℚ
  deriving DecidableEq

/-- The financial snapshot (`FinancialData` in `src/lib/storage.ts`,
final shape used by `src/App.tsx`).  The presentation-only fields
`hasSeenSplash` and `lastUpdated` play no role in the engine and are
omitted. -/
structure FinancialData where
  age : ℤ
  retirementAge : ℤ
  expectedLife : ℤ
  ssaClaimingAge : ℤ
  ssaMonthly : ℚ
  monthlyBudget : ℚ
  monthlyWithdrawal : ℚ
  taxRate : ℚ
  roiScenarios : RoiScenarios
  assets : Assets
  liabilities : Liabilities
  inflationRate : ℚ
  deriving DecidableEq

/-- `investableAssets` (App.tsx line 108): the liquid subset of the
assets, excluding home and car. -/
def investableAssets (d : FinancialData) : ℚ :=
  d.assets.fourOhOneK + d.assets.ira + d.assets.savings + d.assets.other

/-- `getSsaMultiplier` (App.tsx lines 114-119), the benefit curve. -/
def getSsaMultiplier (age : ℚ) : ℚ :=
  if age ≤ 62 then 0.70
  else if age ≥ 70 then 1.24
  else if age < 67 then 0.70 + (age - 62) * 0.06
  else 1.00 + (age - 67) * 0.08

/-- `currentSsaCheck` (App.tsx line 121). -/
def currentSsaCheck (d : FinancialData) : ℚ :=
  d.ssaMonthly * getSsaMultiplier (d.ssaClaimingAge : ℚ)

/-- `netWithdrawal` (App.tsx line 122); presentation-only, shown in the
Monthly Strategy card and read by no projection. -/
def netWithdrawal (d : FinancialData) : ℚ :=
  d.monthlyWithdrawal * (1 - d.taxRate / 100)

/-- The accumulation phase shared by `calculateRunway` (lines 132-136)
and `calculateEndingBalance` (lines 174-177): `n` years during which
assets compound at the return rate and the annual withdrawal inflates.
Returns (assets, annualWithdrawal). -/
def accumulate (roi infl : ℚ) : ℕ → ℚ → ℚ → ℚ × ℚ
  | 0, assets, w => (assets, w)
  | n + 1, assets, w => accumulate roi infl n (assets * (1 + roi)) (w * (1 + infl))

/-- The withdrawal-phase `while` loop of `calculateRunway`
(App.tsx lines 139-158).  State: `years` (= `yearsPostRetirement`),
current assets, current annual withdrawal.  The guard
`years < 50` is encoded by `fuel`, maintained as `50 - years`; the
call site starts at `years = 0`, `fuel = 50`.  Returns the final
`yearsPostRetirement`. -/
def runwayLoop (retAge claimAge curAge : ℤ) (ssaCheck roi infl : ℚ) :
    ℕ → ℕ → ℚ → ℚ → ℕ
  | years, 0, _, _ => years
  | years, fuel + 1, assets, w =>
    if 0 < assets then
      let simAge : ℤ := retAge + years
      let ssaIncome : ℚ :=
        if claimAge ≤ simAge then ssaCheck * 12 * (1 + infl) ^ (simAge - curAge) else 0
      let assets2 := assets * (1 + roi) + ssaIncome - w
      if assets2 ≤ 0 then years
      else runwayLoop retAge claimAge curAge ssaCheck roi infl (years + 1) fuel assets2
        (w * (1 + infl))
    else years

/-- `calculateRunway` (App.tsx lines 125-160): accumulation phase for
`retirementAge - age` years, then the capped withdrawal loop; returns
`retirementAge + yearsPostRetirement`. -/
def calculateRunway (d : FinancialData) (roi : ℚ) : ℤ :=
  let annualRoi := roi / 100
  let annualInflation := d.inflationRate / 100
  let acc := accumulate annualRoi annualInflation (d.retirementAge - d.age).toNat
    (investableAssets d) (d.monthlyWithdrawal * 12)
  d.retirementAge +
    runwayLoop d.retirementAge d.ssaClaimingAge d.age (currentSsaCheck d)
      annualRoi annualInflation 0 50 acc.1 acc.2

/-- The fixed-horizon withdrawal loop of `calculateEndingBalance`
(App.tsx lines 181-191): `i` is the loop index, `k` the remaining
iterations (`yearsToCalculate - i`); short-circuits to 0 when assets go
strictly negative, else finishes with `max 0 assets` (line 192). -/
def endingLoop (retAge claimAge curAge : ℤ) (ssaCheck roi infl : ℚ) :
    ℕ → ℕ → ℚ → ℚ → ℚ
  | _, 0, assets, _ => max 0 assets
  | i, k + 1, assets, w =>
    let simAge : ℤ := retAge + i
    let ssaIncome : ℚ :=
      if claimAge ≤ simAge then ssaCheck * 12 * (1 + infl) ^ (simAge - curAge) else 0
    let assets2 := assets * (1 + roi) + ssaIncome - w
    if assets2 < 0 then 0
    else endingLoop retAge claimAge curAge ssaCheck roi infl (i + 1) k assets2
      (w * (1 + infl))

/-- `calculateEndingBalance` (App.tsx lines 167-193): accumulation for
`max 0 (retirementAge - age)` years at the mid return rate, then a
fixed `expectedLife - retirementAge` withdrawal years. -/
def calculateEndingBalance (d : FinancialData) : ℚ :=
  let annualRoi := d.roiScenarios.mid / 100
  let annualInflation := d.inflationRate / 100
  let acc := accumulate annualRoi annualInflation (max 0 (d.retirementAge - d.age)).toNat
    (investableAssets d) (d.monthlyWithdrawal * 12)
  endingLoop d.retirementAge d.ssaClaimingAge d.age (currentSsaCheck d)
    annualRoi annualInflation 0 (d.expectedLife - d.retirementAge).toNat acc.1 acc.2

/-- `calculateCumulativeCash` (App.tsx lines 198-209): the loop
`for (age = claimingAge; age < endAge; age++)` summed in closed form;
iteration `k` handles age `claimingAge + k`. -/
def calculateCumulativeCash (d : FinancialData) (claimingAge endAge : ℤ) : ℚ :=
  let infl := d.inflationRate / 100
  let baseCheck := d.ssaMonthly * getSsaMultiplier (claimingAge : ℚ) * 12
  (Finset.range (endAge - claimingAge).toNat).sum
    (fun k => baseCheck * (1 + infl) ^ (claimingAge + (k : ℤ) - d.age))

/-- `nowAge` (App.tsx line 212): `Math.max(62, data.age)`. -/
def nowAge (d : FinancialData) : ℤ := max 62 d.age

/-- The annual "claim now" check, `checkNow` (App.tsx line 222). -/
def checkNow (d : FinancialData) : ℚ :=
  d.ssaMonthly * getSsaMultiplier ((nowAge d : ℤ) : ℚ) * 12

/-- The annual "wait" check, `checkWait` (App.tsx line 223). -/
def checkWait (d : FinancialData) : ℚ :=
  d.ssaMonthly * getSsaMultiplier (d.ssaClaimingAge : ℚ) * 12

/-- The walk of `findBreakEven` (App.tsx lines 226-236) over ages
`nowAge ≤ a ≤ 100`; the guard `a ≤ 100` is encoded by
`fuel = (101 - a).toNat` (fuel 0 exactly when `a > 100`); falls through
to 100 when the horizon is exhausted. -/
def breakEvenLoop (waitAge curAge : ℤ) (infl cNow cWait : ℚ) :
    ℤ → ℕ → ℚ → ℚ → ℤ
  | _, 0, _, _ => 100
  | a, fuel + 1, totalNow, totalWait =>
    let totalNow2 := totalNow + cNow * (1 + infl) ^ (a - curAge)
    let totalWait2 :=
      if a < waitAge then totalWait
      else totalWait + cWait * (1 + infl) ^ (a - curAge)
    if totalNow2 < totalWait2 then a
    else breakEvenLoop waitAge curAge infl cNow cWait (a + 1) fuel totalNow2 totalWait2

/-- `findBreakEven` (App.tsx lines 216-237): `none` when
`waitAge ≤ nowAge`, else the walk from `nowAge` to 100. -/
def findBreakEven (d : FinancialData) : Option ℤ :=
  if d.ssaClaimingAge ≤ nowAge d then none
  else
    some (breakEvenLoop d.ssaClaimingAge d.age (d.inflationRate / 100)
      (checkNow d) (checkWait d) (nowAge d) (101 - nowAge d).toNat 0 0)

/-- `forgoneIncome` (App.tsx line 240). -/
def forgoneIncome (d : FinancialData) : ℚ :=
  calculateCumulativeCash d (nowAge d) d.ssaClaimingAge

/-!
Reference definitions taken from the specification's words, used to
compare the code against the spec (refinement-style claims).
-/

/-- The benefit curve exactly as the spec words it: 0.70 for
`claimAge ≤ 62`; 1.24 for `claimAge ≥ 70`; `0.70 + (claimAge − 62) × 0.06`
for `62 < claimAge < 67`; `1.00 + (claimAge − 67) × 0.08` for
`67 ≤ claimAge < 70`. -/
def benefitMultiplierSpec (a : ℚ) : ℚ :=
  if a ≤ 62 then 0.70
  else if 70 ≤ a then 1.24
  else if 62 < a ∧ a < 67 then 0.70 + (a - 62) * 0.06
  else 1.00 + (a - 67) * 0.08

/-- The spec's description of the post-accumulation balance: the
investable assets after compounding at the mid return rate for each
whole year from `age` to `retirementAge`, with zero iterations when
`retirementAge ≤ age`. -/
def postAccumulationBalance (d : FinancialData) : ℚ :=
  investableAssets d *
    (1 + d.roiScenarios.mid / 100) ^ (max 0 (d.retirementAge - d.age)).toNat

/-- Cumulative cash received through age `a` (inclusive) under the
"claim now" policy of the break-even walk: one annual check per age
from `nowAge` to `a`, each inflated from "today". -/
def nowTotal (d : FinancialData) (a : ℤ) : ℚ :=
  (Finset.range (a + 1 - nowAge d).toNat).sum
    (fun k => checkNow d * (1 + d.inflationRate / 100) ^ (nowAge d + (k : ℤ) - d.age))

/-- Cumulative cash received through age `a` (inclusive) under the
"wait" policy: checks start only at ages `≥ ssaClaimingAge`. -/
def waitTotal (d : FinancialData) (a : ℤ) : ℚ :=
  (Finset.range (a + 1 - nowAge d).toNat).sum
    (fun k =>
      if nowAge d + (k : ℤ) < d.ssaClaimingAge then 0
      else checkWait d * (1 + d.inflationRate / 100) ^ (nowAge d + (k : ℤ) - d.age))

/-- Age `a` is a crossover point: the cumulative "wait" total exceeds
the cumulative "now" total. -/
def crossedAt (d : FinancialData) (a : ℤ) : Prop :=
  nowTotal d a < waitTotal d a

/-- The spec's description of the break-even result: the first age in
the walk at which the "wait" total exceeds the "now" total, or 100 if
no crossover occurs within the horizon. -/
def isFirstCrossoverOr100 (d : FinancialData) (r : ℤ) : Prop :=
  r ≤ 100 ∧
    ((crossedAt d r ∧ ∀ b, nowAge d ≤ b → b < r → ¬ crossedAt d b) ∨
      (r = 100 ∧ ∀ b, nowAge d ≤ b → b ≤ 100 → ¬ crossedAt d b))

/-- A snapshot with only the illiquid/display-only inputs replaced:
home value, car value, and the liabilities record. -/
def setIlliquid (d : FinancialData) (h c : ℚ) (L : Liabilities) : FinancialData :=
  { d with assets := { d.assets with home := h, car := c }, liabilities := L }

/-- A snapshot with only `taxRate` and `monthlyBudget` replaced. -/
def setTaxBudget (d : FinancialData) (t b : ℚ) : FinancialData :=
  { d with taxRate := t, monthlyBudget := b }

/-!
Basic facts about the benefit curve.
-/

lemma getSsaMultiplier_nonneg (a : ℚ) : 0 ≤ getSsaMultiplier a := by
  unfold getSsaMultiplier
  split_ifs <;> linarith

/-!
Claims C2, C8 — the benefit curve.
-/

/-- Claim C2: for every claim age (fractional and out-of-range included),
the code's `getSsaMultiplier` coincides with the piecewise-linear
reference curve written in the spec; out-of-range inputs saturate at the
boundary multipliers. -/
theorem claim_C2_benefit_curve : ∀ a : ℚ, getSsaMultiplier a = benefitMultiplierSpec a := by
  intro a
  unfold getSsaMultiplier benefitMultiplierSpec
  split_ifs with h1 h2 h3 h4 <;> first | rfl | (exfalso; simp_all)

/-- Claim C8: the benefit multiplier is monotonically non-decreasing in
the claim age, equals 1.00 at 67, 0.70 at every age ≤ 62, and 1.24 at
every age ≥ 70. -/
theorem claim_C8_curve_shape :
    (∀ a b : ℚ, a ≤ b → getSsaMultiplier a ≤ getSsaMultiplier b) ∧
    getSsaMultiplier 67 = 1.00 ∧
    (∀ a : ℚ, a ≤ 62 → getSsaMultiplier a = 0.70) ∧
    (∀ a : ℚ, 70 ≤ a → getSsaMultiplier a = 1.24) := by
  refine ⟨?_, ?_, ?_, ?_⟩
  · intro a b hab
    unfold getSsaMultiplier
    split_ifs <;> linarith
  · norm_num [getSsaMultiplier]
  · intro a ha; simp [getSsaMultiplier, ha]
  · intro a ha
    unfold getSsaMultiplier
    rw [if_neg (by linarith), if_pos (by exact ha)]

/-- Witness for C8 at concrete ages. -/
theorem claim_C8_witness :
    getSsaMultiplier 63 ≤ getSsaMultiplier 69 ∧
    getSsaMultiplier 60 = 0.70 ∧ getSsaMultiplier 71 = 1.24 :=
  ⟨claim_C8_curve_shape.1 63 69 (by norm_num),
   claim_C8_curve_shape.2.2.1 60 (by norm_num),
   claim_C8_curve_shape.2.2.2 71 (by norm_num)⟩

/-!
Claims C7, C9 — non-interference of display-only inputs.
-/

/-- Claim C7: the runway and ending-balance projections read only the
investable asset fields; changing home value, car value, or any
liabilities field changes neither projection, for every return rate. -/
theorem claim_C7_illiquid_independence :
    ∀ (d : FinancialData) (h c : ℚ) (L : Liabilities) (roi : ℚ),
      calculateRunway (setIlliquid d h c L) roi = calculateRunway d roi ∧
      calculateEndingBalance (setIlliquid d h c L) = calculateEndingBalance d :=
  fun _ _ _ _ _ => ⟨rfl, rfl⟩

/-- Claim C9: no engine output depends on `taxRate` or `monthlyBudget`:
every projection simulates the gross withdrawal `monthlyWithdrawal × 12`,
so replacing those two fields changes none of `calculateRunway`,
`calculateEndingBalance`, `calculateCumulativeCash`, `findBreakEven`. -/
theorem claim_C9_tax_budget_independence :
    ∀ (d : FinancialData) (t b roi : ℚ) (claimAge endAge : ℤ),
      calculateRunway (setTaxBudget d t b) roi = calculateRunway d roi ∧
      calculateEndingBalance (setTaxBudget d t b) = calculateEndingBalance d ∧
      calculateCumulativeCash (setTaxBudget d t b) claimAge endAge =
        calculateCumulativeCash d claimAge endAge ∧
      findBreakEven (setTaxBudget d t b) = findBreakEven d :=
  fun _ _ _ _ _ _ => ⟨rfl, rfl, rfl, rfl⟩

/-!
Facts about the two simulation phases.
-/

lemma accumulate_fst (roi infl : ℚ) :
    ∀ (n : ℕ) (a w : ℚ), (accumulate roi infl n a w).1 = a * (1 + roi) ^ n := by
  intro n
  induction n with
  | zero => intro a w; simp [accumulate]
  | succ n ih =>
    intro a w
    rw [accumulate, ih]
    ring

lemma accumulate_snd (roi infl : ℚ) :
    ∀ (n : ℕ) (a w : ℚ), (accumulate roi infl n a w).2 = w * (1 + infl) ^ n := by
  intro n
  induction n with
  | zero => intro a w; simp [accumulate]
  | succ n ih =>
    intro a w
    rw [accumulate, ih]
    ring

/-- The withdrawal loop stops at once when the assets are not
positive. -/
lemma runwayLoop_stop (retAge claimAge curAge : ℤ) (sc roi infl : ℚ)
    (years fuel : ℕ) (assets w : ℚ) (h : assets ≤ 0) :
    runwayLoop retAge claimAge curAge sc roi infl years fuel assets w = years := by
  cases fuel with
  | zero => rfl
  | succ f =>
    simp only [runwayLoop]
    rw [if_neg (by linarith)]

lemma runwayLoop_bounds (retAge claimAge curAge : ℤ) (sc roi infl : ℚ) :
    ∀ (fuel years : ℕ) (assets w : ℚ),
      years ≤ runwayLoop retAge claimAge curAge sc roi infl years fuel assets w ∧
      runwayLoop retAge claimAge curAge sc roi infl years fuel assets w ≤ years + fuel := by
  intro fuel
  induction fuel with
  | zero => intro years assets w; simp [runwayLoop]
  | succ f ih =>
    intro years assets w
    simp only [runwayLoop]
    split_ifs <;>
      first
        | exact ⟨le_refl _, by omega⟩
        | exact ⟨le_trans (Nat.le_succ years) (ih _ _ _).1,
            le_trans (ih _ _ _).2 (by omega)⟩

/-- When the loop's withdrawal is 0, the assets are positive, and the
growth and income terms are non-negative, the capped loop always runs
to exhaustion. -/
lemma runwayLoop_survives (retAge claimAge curAge : ℤ) (sc roi infl : ℚ)
    (hsc : 0 ≤ sc) (hroi : 0 ≤ roi) (hinfl : -1 ≤ infl) :
    ∀ (fuel years : ℕ) (assets : ℚ), 0 < assets →
      runwayLoop retAge claimAge curAge sc roi infl years fuel assets 0 = years + fuel := by
  intro fuel
  induction fuel with
  | zero => intro years assets _; simp [runwayLoop]
  | succ f ih =>
    intro years assets hpos
    have hssa : 0 ≤ (if claimAge ≤ retAge + (years : ℤ) then
        sc * 12 * (1 + infl) ^ (retAge + (years : ℤ) - curAge) else 0) := by
      split_ifs
      · exact mul_nonneg (mul_nonneg hsc (by norm_num)) (zpow_nonneg (by linarith) _)
      · exact le_refl 0
    have hgrow : assets ≤ assets * (1 + roi) :=
      le_mul_of_one_le_right (le_of_lt hpos) (by linarith)
    have hpos2 : 0 < assets * (1 + roi) +
        (if claimAge ≤ retAge + (years : ℤ) then
          sc * 12 * (1 + infl) ^ (retAge + (years : ℤ) - curAge) else 0) - 0 := by
      linarith
    simp only [runwayLoop]
    rw [if_pos hpos, if_neg (by linarith), zero_mul, ih (years + 1) _ hpos2]
    omega

/-!
Claim C1 — the termination cap of the runway projector.
-/

/-- Claim C1: for every snapshot and every return rate, the runway
projector (a total function: the withdrawal loop consumes its 50-year
fuel) returns an age between `retirementAge` and `retirementAge + 50`
inclusive. -/
theorem claim_C1_runway_bounds (d : FinancialData) (roi : ℚ) :
    d.retirementAge ≤ calculateRunway d roi ∧
      calculateRunway d roi ≤ d.retirementAge + 50 := by
  obtain ⟨h1, h2⟩ := runwayLoop_bounds d.retirementAge d.ssaClaimingAge d.age
    (currentSsaCheck d) (roi / 100) (d.inflationRate / 100) 50 0
    (accumulate (roi / 100) (d.inflationRate / 100) (d.retirementAge - d.age).toNat
      (investableAssets d) (d.monthlyWithdrawal * 12)).1
    (accumulate (roi / 100) (d.inflationRate / 100) (d.retirementAge - d.age).toNat
      (investableAssets d) (d.monthlyWithdrawal * 12)).2
  simp only [calculateRunway]
  omega

/-!
Claim C3 — zero withdrawal means the cap is reached.  The claim as
stated is refuted by a snapshot whose investable assets are zero: the
withdrawal loop's guard `currentAssets > 0` fails immediately and the
projector returns `retirementAge`, not `retirementAge + 50`.
-/

/-- A snapshot with zero investable assets, zero withdrawal; all other
fields are the app's defaults. -/
def snapC3 : FinancialData :=
  { age := 65, retirementAge := 65, expectedLife := 90, ssaClaimingAge := 67,
    ssaMonthly := 3000, monthlyBudget := 5000, monthlyWithdrawal := 0,
    taxRate := 12, roiScenarios := { low := 3, mid := 5, high := 7 },
    assets := { fourOhOneK := 0, ira := 0, savings := 0,
                home := 0, car := 0, other := 0 },
    liabilities := { mortgage := 0, loans := 0, other := 0 },
    inflationRate := 3 }

/-- Counterexample to C3 as stated: `snapC3` has withdrawal 0 and is
evaluated at return rate 0 ≥ 0, yet the projector returns
`retirementAge` (65), which is less than `retirementAge + 50` (115). -/
theorem claim_C3_counterexample :
    snapC3.monthlyWithdrawal = 0 ∧ (0 : ℚ) ≤ 0 ∧
      calculateRunway snapC3 0 = 65 ∧ (65 : ℤ) < snapC3.retirementAge + 50 := by
  refine ⟨rfl, le_refl 0, ?_, by decide⟩
  norm_num [calculateRunway, runwayLoop_stop, accumulate, investableAssets, snapC3]

/-- Claim C3 as amended: when additionally the investable assets are
positive, `ssaMonthly` is non-negative and the inflation rate is at
least −100% (so that the COLA factor `1 + inflation` cannot turn SSA
income negative), zero withdrawal and a non-negative return rate force
the projector to the full 50-year cap. -/
theorem claim_C3_amended (d : FinancialData) (roi : ℚ)
    (hassets : 0 < investableAssets d) (hw : d.monthlyWithdrawal = 0)
    (hroi : 0 ≤ roi) (hssa : 0 ≤ d.ssaMonthly) (hinfl : -100 ≤ d.inflationRate) :
    calculateRunway d roi = d.retirementAge + 50 := by
  have hsc : 0 ≤ currentSsaCheck d :=
    mul_nonneg hssa (getSsaMultiplier_nonneg _)
  have hroi2 : 0 ≤ roi / 100 := by linarith
  have hinfl2 : -1 ≤ d.inflationRate / 100 := by linarith
  have hw0 : d.monthlyWithdrawal * 12 = 0 := by rw [hw]; ring
  simp only [calculateRunway]
  rw [accumulate_snd, hw0, zero_mul, accumulate_fst]
  rw [runwayLoop_survives _ _ _ _ _ _ hsc hroi2 hinfl2 50 0 _
    (mul_pos hassets (pow_pos (by linarith) _))]
  rfl

/-- Witness for the amended C3: the app's default snapshot with the
monthly withdrawal set to 0, projected at a 5% return. -/
def snapC3w : FinancialData :=
  { age := 65, retirementAge := 65, expectedLife := 90, ssaClaimingAge := 67,
    ssaMonthly := 3000, monthlyBudget := 5000, monthlyWithdrawal := 0,
    taxRate := 12, roiScenarios := { low := 3, mid := 5, high := 7 },
    assets := { fourOhOneK := 250000, ira := 50000, savings := 25000,
                home := 0, car := 0, other := 0 },
    liabilities := { mortgage := 0, loans := 0, other := 0 },
    inflationRate := 3 }

/-- Witness for C3 (amended) at a concrete snapshot. -/
theorem claim_C3_witness :
    0 < investableAssets snapC3w ∧ snapC3w.monthlyWithdrawal = 0 ∧
      calculateRunway snapC3w 5 = snapC3w.retirementAge + 50 :=
  ⟨by norm_num [investableAssets, snapC3w], rfl,
    claim_C3_amended snapC3w 5 (by norm_num [investableAssets, snapC3w]) rfl
      (by norm_num) (by norm_num [snapC3w]) (by norm_num [snapC3w])⟩

/-!
Claim C4 — ending balance with no withdrawal years.  The claim as
stated ("returns the post-accumulation balance unchanged") is refuted
whenever that balance is negative: the code's final `Math.max(0, ·)`
clamps it to 0.  A mid return rate below −100% (negative rates are
explicitly permitted) makes a positive balance negative in one year.
-/

/-- A snapshot with one accumulation year at mid return −200% (so the
post-accumulation balance is −100) and `expectedLife = retirementAge`. -/
def snapC4 : FinancialData :=
  { age := 64, retirementAge := 65, expectedLife := 65, ssaClaimingAge := 67,
    ssaMonthly := 3000, monthlyBudget := 5000, monthlyWithdrawal := 0,
    taxRate := 12, roiScenarios := { low := 3, mid := -200, high := 7 },
    assets := { fourOhOneK := 100, ira := 0, savings := 0,
                home := 0, car := 0, other := 0 },
    liabilities := { mortgage := 0, loans := 0, other := 0 },
    inflationRate := 3 }

set_option maxRecDepth 4000 in
/-- Counterexample to C4 as stated: `snapC4` has
`expectedLife ≤ retirementAge` and post-accumulation balance −100, but
the projector returns 0, not the balance unchanged. -/
theorem claim_C4_counterexample :
    snapC4.expectedLife ≤ snapC4.retirementAge ∧
      postAccumulationBalance snapC4 = -100 ∧
      calculateEndingBalance snapC4 = 0 := by
  refine ⟨by decide, ?_, ?_⟩
  · norm_num [postAccumulationBalance, investableAssets, snapC4]
  · norm_num [calculateEndingBalance, endingLoop, accumulate, investableAssets, snapC4,
      max_def]

/-- Claim C4 as amended: with `expectedLife ≤ retirementAge` the
withdrawal phase performs zero years and the function returns the
post-accumulation balance clamped below at 0 (so unchanged whenever it
is non-negative). -/
theorem claim_C4_amended (d : FinancialData) (h : d.expectedLife ≤ d.retirementAge) :
    calculateEndingBalance d = max 0 (postAccumulationBalance d) := by
  simp only [calculateEndingBalance]
  rw [show (d.expectedLife - d.retirementAge).toNat = 0 by omega]
  rw [endingLoop, accumulate_fst, postAccumulationBalance]

/-- Witness for C4 (amended): the default snapshot with
`expectedLife = retirementAge = 65`; the balance is the investable
total, non-negative, hence returned unchanged by the clamp. -/
def snapC4w : FinancialData :=
  { age := 65, retirementAge := 65, expectedLife := 65, ssaClaimingAge := 67,
    ssaMonthly := 3000, monthlyBudget := 5000, monthlyWithdrawal := 3000,
    taxRate := 12, roiScenarios := { low := 3, mid := 5, high := 7 },
    assets := { fourOhOneK := 250000, ira := 50000, savings := 25000,
                home := 0, car := 0, other := 0 },
    liabilities := { mortgage := 0, loans := 0, other := 0 },
    inflationRate := 3 }

/-- Witness for C4 (amended) at a concrete snapshot. -/
theorem claim_C4_witness :
    snapC4w.expectedLife ≤ snapC4w.retirementAge ∧
      calculateEndingBalance snapC4w = max 0 (postAccumulationBalance snapC4w) :=
  ⟨by decide, claim_C4_amended snapC4w (by decide)⟩

/-!
Claim C6 — the "claim now" age.  The claim as stated says the now-age
never exceeds the current age, but the code computes `max(62, age)`
with no upper clamp: for a 50-year-old it is 62 > 50.
-/

/-- A snapshot whose current age is 50. -/
def snapC6 : FinancialData :=
  { age := 50, retirementAge := 65, expectedLife := 90, ssaClaimingAge := 67,
    ssaMonthly := 3000, monthlyBudget := 5000, monthlyWithdrawal := 3000,
    taxRate := 12, roiScenarios := { low := 3, mid := 5, high := 7 },
    assets := { fourOhOneK := 250000, ira := 50000, savings := 25000,
                home := 0, car := 0, other := 0 },
    liabilities := { mortgage := 0, loans := 0, other := 0 },
    inflationRate := 3 }

/-- Counterexample to C6 as stated: at current age 50 the "claim now"
age is 62, which exceeds the current age. -/
theorem claim_C6_counterexample :
    snapC6.age = 50 ∧ nowAge snapC6 = 62 ∧ snapC6.age < nowAge snapC6 := by
  refine ⟨rfl, ?_, ?_⟩ <;> decide

/-- Claim C6 as amended: the "claim now" age is the current age clamped
below at 62 (`max 62 age`); it never exceeds the current age provided
the current age is at least 62, but there is no upper clamp. -/
theorem claim_C6_amended (d : FinancialData) :
    nowAge d = max 62 d.age ∧ 62 ≤ nowAge d ∧
      (62 ≤ d.age → nowAge d = d.age) := by
  refine ⟨rfl, le_max_left _ _, fun h => max_eq_right h⟩

/-- Witness for C6 (amended) at the default snapshot (age 65). -/
theorem claim_C6_witness :
    62 ≤ snapC4w.age ∧ nowAge snapC4w = snapC4w.age :=
  ⟨by decide, (claim_C6_amended snapC4w).2.2 (by decide)⟩

/-!
Facts about the break-even walk's cumulative totals.
-/

lemma nowTotal_base (d : FinancialData) : nowTotal d (nowAge d - 1) = 0 := by
  unfold nowTotal
  rw [show (nowAge d - 1 + 1 - nowAge d).toNat = 0 by omega]
  simp

lemma waitTotal_base (d : FinancialData) : waitTotal d (nowAge d - 1) = 0 := by
  unfold waitTotal
  rw [show (nowAge d - 1 + 1 - nowAge d).toNat = 0 by omega]
  simp

lemma nowTotal_succ (d : FinancialData) (a : ℤ) (ha : nowAge d ≤ a) :
    nowTotal d a =
      nowTotal d (a - 1) + checkNow d * (1 + d.inflationRate / 100) ^ (a - d.age) := by
  unfold nowTotal
  rw [show (a + 1 - nowAge d).toNat = (a - 1 + 1 - nowAge d).toNat + 1 by omega,
    Finset.sum_range_succ,
    show nowAge d + ((a - 1 + 1 - nowAge d).toNat : ℤ) = a by omega]

lemma waitTotal_succ (d : FinancialData) (a : ℤ) (ha : nowAge d ≤ a) :
    waitTotal d a = waitTotal d (a - 1) +
      (if a < d.ssaClaimingAge then 0
        else checkWait d * (1 + d.inflationRate / 100) ^ (a - d.age)) := by
  unfold waitTotal
  rw [show (a + 1 - nowAge d).toNat = (a - 1 + 1 - nowAge d).toNat + 1 by omega,
    Finset.sum_range_succ,
    show nowAge d + ((a - 1 + 1 - nowAge d).toNat : ℤ) = a by omega]

lemma checkNow_nonneg (d : FinancialData) (h1 : 0 ≤ d.ssaMonthly) : 0 ≤ checkNow d :=
  mul_nonneg (mul_nonneg h1 (getSsaMultiplier_nonneg _)) (by norm_num)

lemma nowTotal_nonneg (d : FinancialData) (h1 : 0 ≤ d.ssaMonthly)
    (h2 : -100 ≤ d.inflationRate) (a : ℤ) : 0 ≤ nowTotal d a := by
  refine Finset.sum_nonneg fun k _ => ?_
  exact mul_nonneg (checkNow_nonneg d h1) (zpow_nonneg (by linarith) _)

lemma waitTotal_eq_zero (d : FinancialData) (a : ℤ) (ha : a < d.ssaClaimingAge) :
    waitTotal d a = 0 := by
  refine Finset.sum_eq_zero fun k hk => ?_
  rw [if_pos]
  have := Finset.mem_range.mp hk
  omega

/-- The break-even walk, entered at age `a` with the cumulative totals
through `a - 1` and with no crossover strictly below `a`, produces the
first crossover age, or 100 when the horizon runs out. -/
lemma breakEvenLoop_char (d : FinancialData) :
    ∀ (fuel : ℕ) (a : ℤ), fuel = (101 - a).toNat → nowAge d ≤ a →
      (∀ b, nowAge d ≤ b → b < a → ¬ crossedAt d b) →
      isFirstCrossoverOr100 d
        (breakEvenLoop d.ssaClaimingAge d.age (d.inflationRate / 100)
          (checkNow d) (checkWait d) a fuel (nowTotal d (a - 1)) (waitTotal d (a - 1))) := by
  intro fuel
  induction fuel with
  | zero =>
    intro a hfuel ha hno
    simp only [breakEvenLoop]
    exact ⟨le_refl 100, Or.inr ⟨rfl, fun b hb hb100 => hno b hb (by omega)⟩⟩
  | succ f ih =>
    intro a hfuel ha hno
    have ha100 : a ≤ 100 := by omega
    simp only [breakEvenLoop]
    rw [← nowTotal_succ d a ha]
    rw [show (if a < d.ssaClaimingAge then waitTotal d (a - 1)
          else waitTotal d (a - 1) + checkWait d * (1 + d.inflationRate / 100) ^ (a - d.age))
        = waitTotal d a from by rw [waitTotal_succ d a ha]; split_ifs <;> ring]
    by_cases hcross : nowTotal d a < waitTotal d a
    · rw [if_pos hcross]
      exact ⟨ha100, Or.inl ⟨hcross, hno⟩⟩
    · rw [if_neg hcross]
      have hstep : ∀ b, nowAge d ≤ b → b < a + 1 → ¬ crossedAt d b := by
        intro b hb hba
        by_cases hba2 : b < a
        · exact hno b hb hba2
        · rw [show b = a by omega]
          exact fun hc => hcross hc
      have hrec := ih (a + 1) (by omega) (by omega) hstep
      rw [show a + 1 - 1 = a by ring] at hrec
      exact hrec

/-!
Claim C5 — the break-even analyzer.  The claim as stated says that
whenever `waitAge > nowAge` the result is an age ≥ `waitAge`; this is
refuted by a snapshot whose inflation rate is below −100%: the annual
factor `1 + inflation` is negative, so the cumulative "now" total turns
negative in the second year of the walk and the zero "wait" total
exceeds it before `waitAge` is ever reached.
-/

/-- A snapshot with `nowAge = 62 < waitAge = 65` and inflation −300%. -/
def snapC5 : FinancialData :=
  { age := 62, retirementAge := 65, expectedLife := 90, ssaClaimingAge := 65,
    ssaMonthly := 1000, monthlyBudget := 5000, monthlyWithdrawal := 3000,
    taxRate := 12, roiScenarios := { low := 3, mid := 5, high := 7 },
    assets := { fourOhOneK := 250000, ira := 50000, savings := 25000,
                home := 0, car := 0, other := 0 },
    liabilities := { mortgage := 0, loans := 0, other := 0 },
    inflationRate := -300 }

set_option maxRecDepth 16000 in
/-- Counterexample to C5 as stated: `snapC5` has `waitAge` (65) above
`nowAge` (62), yet `findBreakEven` returns 63 < 65. -/
theorem claim_C5_counterexample :
    nowAge snapC5 < snapC5.ssaClaimingAge ∧
      findBreakEven snapC5 = some 63 ∧ (63 : ℤ) < snapC5.ssaClaimingAge := by
  refine ⟨by decide, ?_, by decide⟩
  norm_num [findBreakEven, breakEvenLoop, checkNow, checkWait, nowAge,
    getSsaMultiplier, snapC5]

/-- Claim C5 as amended: `findBreakEven` yields none exactly when
`waitAge ≤ nowAge`, and any returned age is the first age of the walk
at which the cumulative "wait" total exceeds the cumulative "now"
total, or 100 if no crossover occurs — both unconditionally; the
returned age is moreover ≥ `waitAge` provided `ssaMonthly` is
non-negative, the inflation rate is at least −100%, and the claiming
age is within the walk's horizon (≤ 100, which its documented domain
[62, 70] guarantees). -/
theorem claim_C5_amended (d : FinancialData) :
    (findBreakEven d = none ↔ d.ssaClaimingAge ≤ nowAge d) ∧
    (∀ r, findBreakEven d = some r →
      isFirstCrossoverOr100 d r ∧
      (0 ≤ d.ssaMonthly → -100 ≤ d.inflationRate → d.ssaClaimingAge ≤ 100 →
        d.ssaClaimingAge ≤ r)) := by
  constructor
  · unfold findBreakEven
    split_ifs with h
    · exact ⟨fun _ => h, fun _ => rfl⟩
    · exact ⟨fun hc => absurd hc (by simp), fun hc => absurd hc h⟩
  · intro r hr
    unfold findBreakEven at hr
    by_cases h : d.ssaClaimingAge ≤ nowAge d
    · rw [if_pos h] at hr
      exact absurd hr (by simp)
    · rw [if_neg h] at hr
      injection hr with hr
      have hchar := breakEvenLoop_char d (101 - nowAge d).toNat (nowAge d) rfl
        (le_refl _) (fun b hb hb2 => absurd hb (by omega))
      rw [nowTotal_base, waitTotal_base, hr] at hchar
      refine ⟨hchar, fun h1 h2 h3 => ?_⟩
      rcases hchar with ⟨hr100, hdisj⟩
      rcases hdisj with ⟨hcross, _⟩ | ⟨heq, _⟩
      · by_contra hlt
        have hcross2 : nowTotal d r < waitTotal d r := hcross
        rw [waitTotal_eq_zero d r (by omega)] at hcross2
        exact absurd (nowTotal_nonneg d h1 h2 r) (not_le.mpr hcross2)
      · rw [heq]; exact h3

/-- A snapshot with `waitAge = 67 > nowAge = 62` and benign inputs. -/
def snapC5w : FinancialData :=
  { age := 62, retirementAge := 65, expectedLife := 90, ssaClaimingAge := 67,
    ssaMonthly := 3000, monthlyBudget := 5000, monthlyWithdrawal := 3000,
    taxRate := 12, roiScenarios := { low := 3, mid := 5, high := 7 },
    assets := { fourOhOneK := 250000, ira := 50000, savings := 25000,
                home := 0, car := 0, other := 0 },
    liabilities := { mortgage := 0, loans := 0, other := 0 },
    inflationRate := 3 }

/-- Witness for C5 (amended): at `snapC5w`, `waitAge > nowAge`, so the
analyzer does not yield "none". -/
theorem claim_C5_witness : findBreakEven snapC5w ≠ none := fun hnone =>
  absurd ((claim_C5_amended snapC5w).1.mp hnone) (by decide)

/-!
Claim C10 — empty summation range.
-/

/-- Claim C10: `calculateCumulativeCash` returns 0 whenever
`untilAge ≤ claimAge` (empty range); in particular the forgone-income
figure is 0 when the wait age does not exceed the now age. -/
theorem claim_C10_empty_range :
    (∀ (d : FinancialData) (claimAge untilAge : ℤ), untilAge ≤ claimAge →
      calculateCumulativeCash d claimAge untilAge = 0) ∧
    (∀ d : FinancialData, d.ssaClaimingAge ≤ nowAge d → forgoneIncome d = 0) := by
  have h : ∀ (d : FinancialData) (claimAge untilAge : ℤ), untilAge ≤ claimAge →
      calculateCumulativeCash d claimAge untilAge = 0 := by
    intro d claimAge untilAge hle
    unfold calculateCumulativeCash
    rw [show (untilAge - claimAge).toNat = 0 by omega]
    simp
  exact ⟨h, fun d hd => h d (nowAge d) d.ssaClaimingAge hd⟩

/-- Witness for C10 at a concrete snapshot and ages. -/
theorem claim_C10_witness :
    calculateCumulativeCash
      { age := 65, retirementAge := 65, expectedLife := 90, ssaClaimingAge := 67,
        ssaMonthly := 3000, monthlyBudget := 5000, monthlyWithdrawal := 3000,
        taxRate := 12, roiScenarios := { low := 3, mid := 5, high := 7 },
        assets := { fourOhOneK := 250000, ira := 50000, savings := 25000,
                    home := 0, car := 0, other := 0 },
        liabilities := { mortgage := 0, loans := 0, other := 0 },
        inflationRate := 3 } 70 65 = 0 :=
  claim_C10_empty_range.1 _ 70 65 (by decide)

end RetireSafe
